import Mathlib

/-!
A shallow embedding of the DAMX daemon (DAMX-Daemon.py together with
PowerSourceDetection.py).  Platform interactions (WMI queries, powercfg,
PowerShell) are modelled by explicit environment records: an
`Except Unit _` field stands for a platform query that either raises
(`.error ()`) or returns a value (`.ok v`), and a `Bool` field stands for
a platform call that either succeeds (`true`) or raises (`false`).
Observable platform calls performed by a method are collected in an
explicit trace (`List PlatformCall`).  Python exceptions that the source
catches are therefore visible as the `.error` branches of the matches
below; a Lean function being total corresponds to the Python function
never letting an exception escape.
-/

set_option linter.unusedVariables false

namespace DAMX

/-- Does `pat` occur as a contiguous sublist of the second argument? -/
def listInfixOf (pat : List Char) : List Char → Bool
  | [] => pat.isEmpty
  | a :: rest => pat.isPrefixOf (a :: rest) || listInfixOf pat rest

/-- Substring containment, the model of the Python `pat in s` test on
strings (used by `get_thermal_profile` and the sensor-name matching of
`get_fan_speed`). -/
def strContains (s pat : String) : Bool :=
  listInfixOf pat.toList s.toList

/-- ASCII lower-casing, the model of Python `str.lower()` (the profile
names and keywords compared against are all ASCII). -/
def strLower (s : String) : String :=
  String.mk (s.toList.map Char.toLower)

/-- One observable platform call, in the order the daemon can issue them. -/
inductive PlatformCall
  | wmiSetFanSpeed (cpu gpu : Int)
  | wmiSetCpuSpeed (v : Int)
  | wmiSetGpuSpeed (v : Int)
  | acmcSetFanManual (manual : Bool)
  | acmcSetFanSpeed (cpu gpu : Int)
  | powershellFan (cpu gpu : Int)
  | powercfgSetActive (guid : String)
deriving DecidableEq

/-- `LaptopType` enum of DAMX-Daemon.py. -/
inductive LaptopType
  | unknown
  | predator
  | nitro
deriving DecidableEq

/-- `.name` of the Python enum member. -/
def LaptopType.name : LaptopType → String
  | .unknown => "UNKNOWN"
  | .predator => "PREDATOR"
  | .nitro => "NITRO"

/-- Windows Balanced power scheme GUID (`scheme_map['balanced']`, also the
default of the `scheme_map.get` lookup in `set_thermal_profile`). -/
def balancedGuid : String := "381b4222-f694-41f0-9685-ff5bb260df2e"

/-- Windows High Performance power scheme GUID. -/
def highPerfGuid : String := "8c5e7fda-e8bf-4a96-9a85-a6e23a8c635c"

/-- Windows Power Saver power scheme GUID. -/
def powerSaverGuid : String := "a1841308-3541-4fab-bc81-f71556f20b4a"

/-- The `scheme_map` dict literal of `set_thermal_profile`, in source
order. -/
def scheme_map : List (String × String) :=
  [("performance", highPerfGuid),
   ("balanced-performance", highPerfGuid),
   ("balanced", balancedGuid),
   ("quiet", powerSaverGuid),
   ("low-power", powerSaverGuid)]

/-- `scheme_map.get key` (without the default), i.e. Python dict lookup. -/
def schemeLookup (key : String) : Option String :=
  (scheme_map.find? (fun kv => kv.1 = key)).map Prod.snd

/-- Environment of `set_thermal_profile`: whether the
`powercfg /setactive` subprocess call (run with `check=True`) succeeds or
raises. -/
structure ThermalSetEnv where
  powercfgOk : Bool

/-- `DAMXManager.set_thermal_profile`.  Returns the Python boolean result
together with the trace of platform calls.  The source first returns
`False` when `"thermal_profile"` is not in `available_features`; otherwise
it maps the profile name through `scheme_map.get(profile.lower(),
balancedGuid)` and invokes `powercfg /setactive guid`, returning `False`
if that call raises. -/
def set_thermal_profile (env : ThermalSetEnv) (features : List String)
    (profile : String) : Bool × List PlatformCall :=
  if "thermal_profile" ∈ features then
    let guid := (schemeLookup (strLower profile)).getD balancedGuid
    if env.powercfgOk then (true, [PlatformCall.powercfgSetActive guid])
    else (false, [PlatformCall.powercfgSetActive guid])
  else (false, [])

/-- Environment of `get_thermal_profile`: the stdout of
`powercfg /getactivescheme`, or `.error` when the subprocess call
raises. -/
structure ThermalGetEnv where
  powercfgOut : Except Unit String

/-- `DAMXManager.get_thermal_profile`: pattern-matches the lowered
`powercfg` output, first match wins, any exception yields `'balanced'`. -/
def get_thermal_profile (env : ThermalGetEnv) (features : List String) : String :=
  if "thermal_profile" ∈ features then
    match env.powercfgOut with
    | .error _ => "balanced"
    | .ok out =>
      let output := strLower out
      if strContains output "balanced" then "balanced"
      else if strContains output "high performance" || strContains output "performance" then
        "performance"
      else if strContains output "power saver" then "low-power"
      else "balanced"
  else ""

/-- `DAMXManager.get_thermal_profile_choices`. -/
def get_thermal_profile_choices (features : List String) : List String :=
  if "thermal_profile" ∈ features then
    ["low-power", "quiet", "balanced", "balanced-performance", "performance"]
  else []

/-- Environment of `DAMXManager._detect_available_features`:
`wmiConn` is whether `self.wmi_connection` is non-None; `batteryQuery`
is the `Win32_Battery()` enumeration (`.ok b` = runs and reports a
battery iff `b`, `.error` = raises, in which case the `except` branch
returns the still-empty set); `acerNsOk` is whether the
`wmi.WMI(namespace="root/WMI")` probe succeeds; `laptopType` is
`self.laptop_type`. -/
structure DetectEnv where
  wmiConn : Bool
  batteryQuery : Except Unit Bool
  acerNsOk : Bool
  laptopType : LaptopType

/-- Features added for a non-UNKNOWN laptop type at the end of
`_detect_available_features`. -/
def vendorFeatureList (lt : LaptopType) : List String :=
  if lt ≠ LaptopType.unknown then
    ["fan_speed", "boot_animation_sound", "backlight_timeout", "lcd_override"]
  else []

/-- `DAMXManager._detect_available_features`, returning the feature set
as a list (membership is what matters; the Python `set` may add
`thermal_profile` twice, which is harmless). -/
def detect_available_features (env : DetectEnv) : List String :=
  if env.wmiConn then
    match env.batteryQuery with
    | .error _ => []
    | .ok hasBattery =>
      (if hasBattery then ["battery_calibration", "battery_limiter"] else []) ++
      (if env.acerNsOk then ["thermal_profile"] else []) ++
      ["thermal_profile"] ++ vendorFeatureList env.laptopType
  else ["thermal_profile"] ++ vendorFeatureList env.laptopType

/-- Events of one `PowerSourceDetector.check_power_source` poll, in the
order the Python statements execute: `setSource b` is the assignment
`self.current_source = is_plugged_in`, `fire b` is the call
`self._handle_power_change(is_plugged_in)`. -/
inductive PollEvent
  | setSource (b : Bool)
  | fire (b : Bool)
deriving DecidableEq

/-- One poll of `PowerSourceDetector.check_power_source` (the
re-arming of the one-shot `Timer` is not modelled; no claim concerns
it).  `currentSource` is `self.current_source`, `none` being the initial
Python `None`.  Returns the new `current_source` and the ordered list of
events the poll performed. -/
def check_power_source (isPluggedIn : Bool) (currentSource : Option Bool) :
    Option Bool × List PollEvent :=
  if some isPluggedIn ≠ currentSource then
    (some isPluggedIn, [PollEvent.setSource isPluggedIn, PollEvent.fire isPluggedIn])
  else (currentSource, [])

/-- `PowerSourceDetector._handle_power_change` specialised to the real
`DAMXManager` (which always has the `available_features` attribute,
so the `hasattr` guard is the membership test).  The result is the
profile name passed to `manager.set_thermal_profile`, or `none` when no
set call is made.  `get_thermal_profile` / `get_thermal_profile_choices`
are the manager methods embedded above. -/
def handle_power_change (genv : ThermalGetEnv) (features : List String)
    (isPluggedIn : Bool) : Option String :=
  if "thermal_profile" ∈ features then
    let currentProfile := get_thermal_profile genv features
    let availableProfiles := get_thermal_profile_choices features
    if isPluggedIn then none
    else
      if currentProfile ∈ (["balanced", "quiet", "low-power"] : List String) then none
      else
        if "balanced" ∈ availableProfiles then some "balanced"
        else if "quiet" ∈ availableProfiles then some "quiet"
        else if "low-power" ∈ availableProfiles then some "low-power"
        else none
  else none

/-- A WMI object as seen by the fan-speed setter: does it expose the
method looked up with `hasattr`, and does calling that method succeed or
raise? -/
structure WmiObj where
  hasAttr : Bool
  callOk : Bool

/-- An `AcerACMCEvent` object: `hasattr(acmc, 'SetFanManual')`, whether
the `SetFanManual` call succeeds, and whether the subsequent
`SetFanSpeed` call succeeds. -/
structure AcmcObj where
  hasSetFanManual : Bool
  manualCallOk : Bool
  speedCallOk : Bool

/-- Environment of `set_fan_speed`: `acerNsOk` / `acerNs2Ok` are the
two `wmi.WMI(namespace="root/WMI")` constructions in methods 1 and 2;
each `Except` field is a WMI class enumeration (`.error` = enumerating
raises); `psRun` is the PowerShell `subprocess.run` (`.ok rc` = runs and
exits with code `rc`, `.error` = raises); `thermalEnv` drives the
`set_thermal_profile` fallback. -/
structure SetFanEnv where
  acerNsOk : Bool
  controllers : Except Unit (List WmiObj)
  cpuSetObjs : Except Unit (List WmiObj)
  gpuSetObjs : Except Unit (List WmiObj)
  acerNs2Ok : Bool
  acmcObjs : Except Unit (List AcmcObj)
  psRun : Except Unit Int
  thermalEnv : ThermalSetEnv

/-- The `SetSpeed` sub-loops of method 1 of `set_fan_speed`: every object
exposing the attribute is called in turn; a raising call aborts the loop
(its enclosing `except: pass`), after the call was attempted. -/
def callSetSpeedAll (mk : PlatformCall) : List WmiObj → List PlatformCall
  | [] => []
  | o :: rest =>
    if o.hasAttr then
      if o.callOk then mk :: callSetSpeedAll mk rest else [mk]
    else callSetSpeedAll mk rest

/-- Method 1 of `set_fan_speed` (Acer Gaming WMI interface): the first
`AcerGaming_FanSpeedController` exposing `SetFanSpeed` is called and, on
success, the setter returns `True`; a raising call falls through (via
`except: pass`) to the per-CPU/per-GPU `SetSpeed` loops, which never
return.  The Bool is whether the method made `set_fan_speed` return
`True`. -/
def fanMethod1 (env : SetFanEnv) (cpu gpu : Int) : Bool × List PlatformCall :=
  if env.acerNsOk then
    let block1 : Bool × List PlatformCall :=
      match env.controllers with
      | .error _ => (false, [])
      | .ok objs =>
        match objs.find? (fun o => o.hasAttr) with
        | none => (false, [])
        | some o => (o.callOk, [PlatformCall.wmiSetFanSpeed cpu gpu])
    if block1.1 then (true, block1.2)
    else
      let tr2 :=
        match env.cpuSetObjs with
        | .error _ => []
        | .ok objs => callSetSpeedAll (PlatformCall.wmiSetCpuSpeed cpu) objs
      let tr3 :=
        match env.gpuSetObjs with
        | .error _ => []
        | .ok objs => callSetSpeedAll (PlatformCall.wmiSetGpuSpeed gpu) objs
      (false, block1.2 ++ tr2 ++ tr3)
  else (false, [])

/-- Method 2 of `set_fan_speed` (ACPI ACMC interface): the first
`AcerACMCEvent` object exposing `SetFanManual` is driven; with both
speeds zero it is switched back to automatic mode, otherwise to manual
mode followed by `SetFanSpeed`; a raising call aborts the method
(`except: pass`) without returning. -/
def fanMethod2 (env : SetFanEnv) (cpu gpu : Int) : Bool × List PlatformCall :=
  if env.acerNs2Ok then
    match env.acmcObjs with
    | .error _ => (false, [])
    | .ok objs =>
      match objs.find? (fun o => o.hasSetFanManual) with
      | none => (false, [])
      | some o =>
        if cpu = 0 ∧ gpu = 0 then
          (o.manualCallOk, [PlatformCall.acmcSetFanManual false])
        else
          if o.manualCallOk then
            (o.speedCallOk,
             [PlatformCall.acmcSetFanManual true, PlatformCall.acmcSetFanSpeed cpu gpu])
          else (false, [PlatformCall.acmcSetFanManual true])
  else (false, [])

/-- Method 3 of `set_fan_speed`: the PowerShell script invocation;
`set_fan_speed` returns `True` exactly when the script exits with
code 0. -/
def fanMethod3 (env : SetFanEnv) (cpu gpu : Int) : Bool × List PlatformCall :=
  match env.psRun with
  | .error _ => (false, [PlatformCall.powershellFan cpu gpu])
  | .ok rc => (rc == 0, [PlatformCall.powershellFan cpu gpu])

/-- The thermal-profile fallback at the end of `set_fan_speed`: when the
`thermal_profile` feature is available, both speeds `>= 80` applies the
`performance` profile and returns `True`, both speeds `== 0` applies
`balanced` and returns `True` (in both cases ignoring the result of
`set_thermal_profile`); anything else returns `False`. -/
def fanFallback (tenv : ThermalSetEnv) (features : List String) (cpu gpu : Int)
    (tr : List PlatformCall) : Bool × List PlatformCall :=
  if "thermal_profile" ∈ features then
    if 80 ≤ cpu ∧ 80 ≤ gpu then
      (true, tr ++ (set_thermal_profile tenv features "performance").2)
    else if cpu = 0 ∧ gpu = 0 then
      (true, tr ++ (set_thermal_profile tenv features "balanced").2)
    else (false, tr)
  else (false, tr)

/-- `DAMXManager.set_fan_speed`: feature gate, `[0,100]` range
validation, the three vendor methods in order, then the thermal-profile
fallback.  Returns the Python boolean result and the platform-call
trace. -/
def set_fan_speed (env : SetFanEnv) (features : List String) (cpu gpu : Int) :
    Bool × List PlatformCall :=
  if "fan_speed" ∈ features then
    if 0 ≤ cpu ∧ cpu ≤ 100 ∧ 0 ≤ gpu ∧ gpu ≤ 100 then
      let r1 := fanMethod1 env cpu gpu
      if r1.1 then (true, r1.2)
      else
        let r2 := fanMethod2 env cpu gpu
        if r2.1 then (true, r1.2 ++ r2.2)
        else
          let r3 := fanMethod3 env cpu gpu
          if r3.1 then (true, r1.2 ++ r2.2 ++ r3.2)
          else fanFallback env.thermalEnv features cpu gpu (r1.2 ++ r2.2 ++ r3.2)
    else (false, [])
  else (false, [])

/-- The unconditional stub setters of `DAMXManager` on Windows: each
logs an advisory message and returns `False` without any platform
call. -/
def set_backlight_timeout (enabled : Bool) : Bool × List PlatformCall :=
  (false, [])

/-- `DAMXManager.set_battery_calibration`, a stub returning `False`. -/
def set_battery_calibration (enabled : Bool) : Bool × List PlatformCall :=
  (false, [])

/-- `DAMXManager.set_battery_limiter`, a stub returning `False`. -/
def set_battery_limiter (enabled : Bool) : Bool × List PlatformCall :=
  (false, [])

/-- `DAMXManager.set_boot_animation_sound`, a stub returning `False`. -/
def set_boot_animation_sound (enabled : Bool) : Bool × List PlatformCall :=
  (false, [])

/-- `DAMXManager.set_lcd_override`, a stub returning `False`. -/
def set_lcd_override (enabled : Bool) : Bool × List PlatformCall :=
  (false, [])

/-- `DAMXManager.set_usb_charging`, a stub returning `False`. -/
def set_usb_charging (level : Int) : Bool × List PlatformCall :=
  (false, [])

/-- `DAMXManager.set_per_zone_mode`, a stub returning `False`. -/
def set_per_zone_mode (zone1 zone2 zone3 zone4 : String) (brightness : Int) :
    Bool × List PlatformCall :=
  (false, [])

/-- `DAMXManager.set_four_zone_mode`, a stub returning `False`. -/
def set_four_zone_mode (mode speed brightness direction red green blue : Int) :
    Bool × List PlatformCall :=
  (false, [])

/-- An `AcerGaming_FanSpeed` object: which of the two speed attributes it
exposes, and their stringified values. -/
structure FanObj where
  hasCpuFanSpeed : Bool
  cpuFanSpeed : String
  hasGpuFanSpeed : Bool
  gpuFanSpeed : String

/-- An object carrying one optional speed attribute (`CurrentSpeed` of
the per-fan Acer classes, or `DesiredSpeed` of `Win32_Fan`). -/
structure CurObj where
  hasSpeedAttr : Bool
  speedVal : String

/-- An Open/LibreHardwareMonitor sensor: `SensorType`, optional `Name`
(Python `None` = `none`) and optional numeric `Value` (`none` or `some 0`
are falsy, giving the string `"0"`). -/
structure SensorObj where
  sensorType : String
  sensorName : Option String
  sensorValue : Option Int

/-- Environment of `get_fan_speed`: each list is one WMI enumeration,
`.error` meaning the query raises (caught by the enclosing
`try`/`except`). -/
structure FanReadEnv where
  acerNsOk : Bool
  acerFanSpeedObjs : Except Unit (List FanObj)
  acerCpuFanObjs : Except Unit (List CurObj)
  acerGpuFanObjs : Except Unit (List CurObj)
  wmiRootOk : Bool
  win32FanObjs : Except Unit (List CurObj)
  ohmSensors : Except Unit (List SensorObj)
  lhmSensors : Except Unit (List SensorObj)

/-- The `AcerGaming_FanSpeed` loop of `get_fan_speed`: updates the
current readings from each object's attributes and returns early as soon
as either reading is non-`"0"`.  The first component is the early-return
value, if any; the remaining components are the readings after the
loop. -/
def fanSpeedLoop (cpu gpu : String) :
    List FanObj → Option (String × String) × String × String
  | [] => (none, cpu, gpu)
  | f :: rest =>
    let cpu1 := if f.hasCpuFanSpeed then f.cpuFanSpeed else cpu
    let gpu1 := if f.hasGpuFanSpeed then f.gpuFanSpeed else gpu
    if cpu1 ≠ "0" ∨ gpu1 ≠ "0" then (some (cpu1, gpu1), cpu1, gpu1)
    else fanSpeedLoop cpu1 gpu1 rest

/-- The per-fan `CurrentSpeed` loops of `get_fan_speed`: the last object
exposing the attribute wins. -/
def curSpeedLoop (v : String) : List CurObj → String
  | [] => v
  | o :: rest => curSpeedLoop (if o.hasSpeedAttr then o.speedVal else v) rest

/-- The `Win32_Fan` loop of `get_fan_speed`: the first object exposing
`DesiredSpeed` wins (the loop `break`s). -/
def desiredSpeedFirst (v : String) : List CurObj → String
  | [] => v
  | o :: rest => if o.hasSpeedAttr then o.speedVal else desiredSpeedFirst v rest

/-- `str(int(sensor.Value)) if sensor.Value else "0"`. -/
def sensorValueStr (s : SensorObj) : String :=
  match s.sensorValue with
  | some v => if v ≠ 0 then toString v else "0"
  | none => "0"

/-- One hardware-monitor sensor loop of `get_fan_speed`, parameterised by
the two CPU name patterns and the two GPU name patterns (`"cpu"`/
`"fan #1"`/`"gpu"`/`"fan #2"` for OpenHardwareMonitor, `"cpu"`/`"#1"`/
`"gpu"`/`"#2"` for LibreHardwareMonitor). -/
def sensorLoop (cpuPat1 cpuPat2 gpuPat1 gpuPat2 : String) (cpu gpu : String) :
    List SensorObj → String × String
  | [] => (cpu, gpu)
  | s :: rest =>
    if s.sensorType = "Fan" then
      let nm := strLower (s.sensorName.getD "")
      let v := sensorValueStr s
      if strContains nm cpuPat1 || strContains nm cpuPat2 then
        sensorLoop cpuPat1 cpuPat2 gpuPat1 gpuPat2 v gpu rest
      else if strContains nm gpuPat1 || strContains nm gpuPat2 then
        sensorLoop cpuPat1 cpuPat2 gpuPat1 gpuPat2 cpu v rest
      else sensorLoop cpuPat1 cpuPat2 gpuPat1 gpuPat2 cpu gpu rest
    else sensorLoop cpuPat1 cpuPat2 gpuPat1 gpuPat2 cpu gpu rest

/-- `DAMXManager.get_fan_speed`: the feature gate, then the four read
methods in order, each wrapped in its own `try`/`except` so that a
raising query degrades to the readings collected so far; returns
`("", "")` when the feature is absent. -/
def get_fan_speed (env : FanReadEnv) (features : List String) : String × String :=
  if "fan_speed" ∈ features then
    let m1 : Option (String × String) × String × String :=
      if env.acerNsOk then
        let stepA :=
          match env.acerFanSpeedObjs with
          | .error _ => (none, "0", "0")
          | .ok objs => fanSpeedLoop "0" "0" objs
        match stepA with
        | (some r, c, g) => (some r, c, g)
        | (none, c, g) =>
          let c1 :=
            match env.acerCpuFanObjs with
            | .error _ => c
            | .ok objs => curSpeedLoop c objs
          let g1 :=
            match env.acerGpuFanObjs with
            | .error _ => g
            | .ok objs => curSpeedLoop g objs
          if c1 ≠ "0" ∨ g1 ≠ "0" then (some (c1, g1), c1, g1) else (none, c1, g1)
      else (none, "0", "0")
    match m1 with
    | (some r, _, _) => r
    | (none, c, g) =>
      let c2 :=
        if env.wmiRootOk then
          match env.win32FanObjs with
          | .error _ => c
          | .ok objs => desiredSpeedFirst c objs
        else c
      let cg3 :=
        match env.ohmSensors with
        | .error _ => (c2, g)
        | .ok objs => sensorLoop "cpu" "fan #1" "gpu" "fan #2" c2 g objs
      let cg4 :=
        match env.lhmSensors with
        | .error _ => cg3
        | .ok objs => sensorLoop "cpu" "#1" "gpu" "#2" cg3.1 cg3.2 objs
      cg4
  else ("", "")

/-- The environment of `get_driver_version`: `wmiConn` is whether
`self.wmi_connection` is non-None, `driverQuery` the
`Win32_SystemDriver(Name='ACPI')` enumeration — `.ok none` means it runs
but yields no object, `.ok (some p)` means the first object's `PathName`
stringifies to `p` (`""` standing for a falsy `PathName`). -/
structure DriverEnv where
  wmiConn : Bool
  driverQuery : Except Unit (Option String)

/-- `DAMXManager.get_driver_version`. -/
def get_driver_version (env : DriverEnv) : String :=
  if env.wmiConn then
    match env.driverQuery with
    | .error _ => "Unknown Version"
    | .ok none => "Windows WMI"
    | .ok (some p) => if p = "" then "ACPI Driver" else p
  else "Windows WMI"

/-- `VERSION` constant of the daemon. -/
def VERSION : String := "0.4.6"

/-- The constant "unsupported" getters of `DAMXManager` on Windows. -/
def get_backlight_timeout : String := "0"

/-- `DAMXManager.get_battery_calibration`. -/
def get_battery_calibration : String := "0"

/-- `DAMXManager.get_battery_limiter`. -/
def get_battery_limiter : String := "0"

/-- `DAMXManager.get_boot_animation_sound`. -/
def get_boot_animation_sound : String := "0"

/-- `DAMXManager.get_lcd_override`. -/
def get_lcd_override : String := "0"

/-- `DAMXManager.get_usb_charging`. -/
def get_usb_charging : String := "0"

/-- `DAMXManager.get_per_zone_mode`. -/
def get_per_zone_mode : String := ""

/-- `DAMXManager.get_four_zone_mode`. -/
def get_four_zone_mode : String := ""

/-- A value of the settings dictionary built by `get_all_settings`. -/
inductive SVal
  | str (v : String)
  | flag (v : Bool)
  | strs (v : List String)
  | profileInfo (current : String) (avail : List String)
  | fans (cpu gpu : String)
deriving DecidableEq

/-- The settings dictionary: a key/value list in Python insertion
order. -/
abbrev Settings := List (String × SVal)

/-- The immutable-after-startup state of a `DAMXManager`. -/
structure ManagerState where
  laptopType : LaptopType
  hasFourZoneKb : Bool
  availableFeatures : List String
  currentModprobeParam : String

/-- The platform environment a `get_all_settings` call runs against. -/
structure ManagerEnv where
  driver : DriverEnv
  thermalGet : ThermalGetEnv
  fanRead : FanReadEnv

/-- `DAMXManager.get_all_settings`: the six base entries, the
`thermal_profile` entry (present either way, empty when the feature is
absent), then one entry per remaining feature gated on membership in
`available_features`.  The source has no `try`/`except` of its own: it
is total because every getter it calls catches its own platform
exceptions. -/
def get_all_settings (st : ManagerState) (env : ManagerEnv) : Settings :=
  [("laptop_type", SVal.str st.laptopType.name),
   ("has_four_zone_kb", SVal.flag st.hasFourZoneKb),
   ("available_features", SVal.strs st.availableFeatures),
   ("version", SVal.str VERSION),
   ("driver_version", SVal.str (get_driver_version env.driver)),
   ("modprobe_parameter", SVal.str st.currentModprobeParam)]
  ++ [("thermal_profile",
       if "thermal_profile" ∈ st.availableFeatures then
         SVal.profileInfo (get_thermal_profile env.thermalGet st.availableFeatures)
           (get_thermal_profile_choices st.availableFeatures)
       else SVal.profileInfo "" [])]
  ++ (if "backlight_timeout" ∈ st.availableFeatures then
        [("backlight_timeout", SVal.str get_backlight_timeout)] else [])
  ++ (if "battery_calibration" ∈ st.availableFeatures then
        [("battery_calibration", SVal.str get_battery_calibration)] else [])
  ++ (if "battery_limiter" ∈ st.availableFeatures then
        [("battery_limiter", SVal.str get_battery_limiter)] else [])
  ++ (if "boot_animation_sound" ∈ st.availableFeatures then
        [("boot_animation_sound", SVal.str get_boot_animation_sound)] else [])
  ++ (if "fan_speed" ∈ st.availableFeatures then
        [("fan_speed",
          SVal.fans (get_fan_speed env.fanRead st.availableFeatures).1
            (get_fan_speed env.fanRead st.availableFeatures).2)] else [])
  ++ (if "lcd_override" ∈ st.availableFeatures then
        [("lcd_override", SVal.str get_lcd_override)] else [])
  ++ (if "usb_charging" ∈ st.availableFeatures then
        [("usb_charging", SVal.str get_usb_charging)] else [])
  ++ (if "per_zone_mode" ∈ st.availableFeatures then
        [("per_zone_mode", SVal.str get_per_zone_mode)] else [])
  ++ (if "four_zone_mode" ∈ st.availableFeatures then
        [("four_zone_mode", SVal.str get_four_zone_mode)] else [])

/-- The key list `get_all_settings` produces, as a function of the
feature set alone. -/
def settingsKeys (features : List String) : List String :=
  ["laptop_type", "has_four_zone_kb", "available_features", "version",
   "driver_version", "modprobe_parameter", "thermal_profile"]
  ++ (if "backlight_timeout" ∈ features then ["backlight_timeout"] else [])
  ++ (if "battery_calibration" ∈ features then ["battery_calibration"] else [])
  ++ (if "battery_limiter" ∈ features then ["battery_limiter"] else [])
  ++ (if "boot_animation_sound" ∈ features then ["boot_animation_sound"] else [])
  ++ (if "fan_speed" ∈ features then ["fan_speed"] else [])
  ++ (if "lcd_override" ∈ features then ["lcd_override"] else [])
  ++ (if "usb_charging" ∈ features then ["usb_charging"] else [])
  ++ (if "per_zone_mode" ∈ features then ["per_zone_mode"] else [])
  ++ (if "four_zone_mode" ∈ features then ["four_zone_mode"] else [])

/-- The request parameters as `process_command` reads them: each field
models `params.get(key, default)` with the source's default, so a request
omitting a key is the structure with that field left at its default. -/
structure Params where
  profile : String := ""
  enabled : Bool := false
  cpu : Int := 0
  gpu : Int := 0
  level : Int := 0
  zone1 : String := "000000"
  zone2 : String := "000000"
  zone3 : String := "000000"
  zone4 : String := "000000"
  brightness : Int := 100
  mode : Int := 0
  speed : Int := 0
  direction : Int := 1
  red : Int := 0
  green : Int := 0
  blue : Int := 0
  parameter : String := ""
deriving DecidableEq

/-- One invocation of a `DAMXManager` operation by `process_command`. -/
inductive MgrCall
  | getAllSettings
  | getThermalProfile
  | getThermalProfileChoices
  | setThermalProfile (p : String)
  | setBacklightTimeout (b : Bool)
  | setBatteryCalibration (b : Bool)
  | setBatteryLimiter (b : Bool)
  | setBootAnimationSound (b : Bool)
  | setFanSpeed (cpu gpu : Int)
  | setLcdOverride (b : Bool)
  | setUsbCharging (v : Int)
  | setPerZoneMode (z1 z2 z3 z4 : String) (brightness : Int)
  | setFourZoneMode (mode speed brightness direction red green blue : Int)
  | forceModelNitro
  | forceModelPredator
  | forceEnableAll
  | getModprobeParameter
  | setModprobeParameter (p : String)
  | removeModprobeParameter
  | restartDaemon
  | restartDriversAndDaemon
deriving DecidableEq

/-- The behaviour of the `DAMXManager` instance `process_command`
dispatches to.  Each operation either returns a value (`.ok`) or raises
(`.error msg`, `msg` being Python's `str(e)`); the raise is what the
`try`/`except` at the bottom of `process_command` catches.  The field
reads (`available_features`, `laptop_type`, `has_four_zone_kb`) cannot
raise. -/
structure MgrOps where
  getAllSettings : Except String Settings
  getThermalProfile : Except String String
  getThermalProfileChoices : Except String (List String)
  setThermalProfile : String → Except String Bool
  setBacklightTimeout : Bool → Except String Bool
  setBatteryCalibration : Bool → Except String Bool
  setBatteryLimiter : Bool → Except String Bool
  setBootAnimationSound : Bool → Except String Bool
  setFanSpeed : Int → Int → Except String Bool
  setLcdOverride : Bool → Except String Bool
  setUsbCharging : Int → Except String Bool
  setPerZoneMode : String → String → String → String → Int → Except String Bool
  setFourZoneMode : Int → Int → Int → Int → Int → Int → Int → Except String Bool
  forceModelNitro : Except String Bool
  forceModelPredator : Except String Bool
  forceEnableAll : Except String Bool
  getModprobeParameter : Except String String
  setModprobeParameter : String → Except String Bool
  removeModprobeParameter : Except String Bool
  restartDaemon : Except String Bool
  restartDriversAndDaemon : Except String Bool
  availableFeatures : List String
  laptopType : LaptopType
  hasFourZoneKb : Bool

/-- The `data` payload of a response, one constructor per shape the
dispatcher builds. -/
inductive RVal
  | settings (s : Settings)
  | profileInfo (current : String) (avail : List String)
  | profileSet (profile : String)
  | enabled (b : Bool)
  | fanSet (cpu gpu : Int)
  | level (v : Int)
  | perZone (z1 z2 z3 z4 : String) (brightness : Int)
  | fourZone (mode speed brightness direction red green blue : Int)
  | supported (availableFeatures : List String) (laptopType : String) (kb : Bool)
  | versionInfo (v : String)
  | parameter (p : String)
deriving DecidableEq

/-- A response dictionary: keys absent from the Python dict are `none`
here. -/
structure Response where
  success : Bool
  data : Option RVal := none
  error : Option String := none
  message : Option String := none
deriving DecidableEq

/-- The command names of the dispatch chain of `process_command`, in
source order. -/
def knownCommands : List String :=
  ["get_all_settings", "get_thermal_profile", "set_thermal_profile",
   "set_backlight_timeout", "set_battery_calibration", "set_battery_limiter",
   "set_boot_animation_sound", "set_fan_speed", "set_lcd_override",
   "set_usb_charging", "set_per_zone_mode", "set_four_zone_mode",
   "get_supported_features", "get_version", "force_nitro_model",
   "force_predator_model", "force_enable_all", "get_modprobe_parameter",
   "set_modprobe_parameter_nitro", "set_modprobe_parameter_predator",
   "set_modprobe_parameter_enable_all", "remove_modprobe_parameter",
   "restart_daemon", "restart_drivers_and_daemon"]

/-- The `set_modprobe_parameter_nitro` branch builds its success response
from a variable `param` that is never assigned in that branch, so a
successful set raises a `NameError` (modelled message; the real text
quotes the variable name). -/
def nameErrorParam : String := "NameError: name param is not defined"

/-- The body of the `try` block of `DaemonServer.process_command`: the
`elif` chain in source order.  The first component is the response, or
the exception the body lets escape to the `except` clause; the second is
the trace of manager operations invoked. -/
def process_command_body (m : MgrOps) (command : String) (params : Params) :
    Except String Response × List MgrCall :=
  if command = "get_all_settings" then
    match m.getAllSettings with
    | .error e => (.error e, [MgrCall.getAllSettings])
    | .ok s =>
      (.ok { success := true, data := some (RVal.settings s) }, [MgrCall.getAllSettings])
  else if command = "get_thermal_profile" then
    if "thermal_profile" ∈ m.availableFeatures then
      match m.getThermalProfile with
      | .error e => (.error e, [MgrCall.getThermalProfile])
      | .ok profile =>
        match m.getThermalProfileChoices with
        | .error e => (.error e, [MgrCall.getThermalProfile, MgrCall.getThermalProfileChoices])
        | .ok choices =>
          (.ok { success := true, data := some (RVal.profileInfo profile choices) },
           [MgrCall.getThermalProfile, MgrCall.getThermalProfileChoices])
    else
      (.ok { success := false,
             error := some "Thermal profile is not supported on this device" }, [])
  else if command = "set_thermal_profile" then
    if "thermal_profile" ∈ m.availableFeatures then
      let profile := params.profile
      match m.setThermalProfile profile with
      | .error e => (.error e, [MgrCall.setThermalProfile profile])
      | .ok success =>
        (.ok { success := success,
               data := if success then some (RVal.profileSet profile) else none,
               error := if success then none else some "Failed to set thermal profile" },
         [MgrCall.setThermalProfile profile])
    else
      (.ok { success := false,
             error := some "Thermal profile is not supported on this device" }, [])
  else if command = "set_backlight_timeout" then
    if "backlight_timeout" ∈ m.availableFeatures then
      let enabled := params.enabled
      match m.setBacklightTimeout enabled with
      | .error e => (.error e, [MgrCall.setBacklightTimeout enabled])
      | .ok success =>
        (.ok { success := success,
               data := if success then some (RVal.enabled enabled) else none,
               error := if success then none else some "Failed to set backlight timeout" },
         [MgrCall.setBacklightTimeout enabled])
    else
      (.ok { success := false,
             error := some "Backlight timeout is not supported on this device" }, [])
  else if command = "set_battery_calibration" then
    if "battery_calibration" ∈ m.availableFeatures then
      let enabled := params.enabled
      match m.setBatteryCalibration enabled with
      | .error e => (.error e, [MgrCall.setBatteryCalibration enabled])
      | .ok success =>
        (.ok { success := success,
               data := if success then some (RVal.enabled enabled) else none,
               error := if success then none else some "Failed to set battery calibration" },
         [MgrCall.setBatteryCalibration enabled])
    else
      (.ok { success := false,
             error := some "Battery calibration is not supported on this device" }, [])
  else if command = "set_battery_limiter" then
    if "battery_limiter" ∈ m.availableFeatures then
      let enabled := params.enabled
      match m.setBatteryLimiter enabled with
      | .error e => (.error e, [MgrCall.setBatteryLimiter enabled])
      | .ok success =>
        (.ok { success := success,
               data := if success then some (RVal.enabled enabled) else none,
               error := if success then none else some "Failed to set battery limiter" },
         [MgrCall.setBatteryLimiter enabled])
    else
      (.ok { success := false,
             error := some "Battery limiter is not supported on this device" }, [])
  else if command = "set_boot_animation_sound" then
    if "boot_animation_sound" ∈ m.availableFeatures then
      let enabled := params.enabled
      match m.setBootAnimationSound enabled with
      | .error e => (.error e, [MgrCall.setBootAnimationSound enabled])
      | .ok success =>
        (.ok { success := success,
               data := if success then some (RVal.enabled enabled) else none,
               error := if success then none else some "Failed to set boot animation sound" },
         [MgrCall.setBootAnimationSound enabled])
    else
      (.ok { success := false,
             error := some "Boot animation sound is not supported on this device" }, [])
  else if command = "set_fan_speed" then
    if "fan_speed" ∈ m.availableFeatures then
      let cpu := params.cpu
      let gpu := params.gpu
      match m.setFanSpeed cpu gpu with
      | .error e => (.error e, [MgrCall.setFanSpeed cpu gpu])
      | .ok success =>
        (.ok { success := success,
               data := if success then some (RVal.fanSet cpu gpu) else none,
               error := if success then none else some "Failed to set fan speed" },
         [MgrCall.setFanSpeed cpu gpu])
    else
      (.ok { success := false,
             error := some "Fan speed control is not supported on this device" }, [])
  else if command = "set_lcd_override" then
    if "lcd_override" ∈ m.availableFeatures then
      let enabled := params.enabled
      match m.setLcdOverride enabled with
      | .error e => (.error e, [MgrCall.setLcdOverride enabled])
      | .ok success =>
        (.ok { success := success,
               data := if success then some (RVal.enabled enabled) else none,
               error := if success then none else some "Failed to set LCD override" },
         [MgrCall.setLcdOverride enabled])
    else
      (.ok { success := false,
             error := some "LCD override is not supported on this device" }, [])
  else if command = "set_usb_charging" then
    if "usb_charging" ∈ m.availableFeatures then
      let level := params.level
      match m.setUsbCharging level with
      | .error e => (.error e, [MgrCall.setUsbCharging level])
      | .ok success =>
        (.ok { success := success,
               data := if success then some (RVal.level level) else none,
               error := if success then none else some "Failed to set USB charging" },
         [MgrCall.setUsbCharging level])
    else
      (.ok { success := false,
             error := some "USB charging control is not supported on this device" }, [])
  else if command = "set_per_zone_mode" then
    if "per_zone_mode" ∈ m.availableFeatures then
      let z1 := params.zone1
      let z2 := params.zone2
      let z3 := params.zone3
      let z4 := params.zone4
      let brightness := params.brightness
      match m.setPerZoneMode z1 z2 z3 z4 brightness with
      | .error e => (.error e, [MgrCall.setPerZoneMode z1 z2 z3 z4 brightness])
      | .ok success =>
        (.ok { success := success,
               data := if success then some (RVal.perZone z1 z2 z3 z4 brightness) else none,
               error := if success then none else some "Failed to set per-zone mode" },
         [MgrCall.setPerZoneMode z1 z2 z3 z4 brightness])
    else
      (.ok { success := false,
             error := some "Per-zone keyboard mode is not supported on this device" }, [])
  else if command = "set_four_zone_mode" then
    if "four_zone_mode" ∈ m.availableFeatures then
      let mode := params.mode
      let speed := params.speed
      let brightness := params.brightness
      let direction := params.direction
      let red := params.red
      let green := params.green
      let blue := params.blue
      match m.setFourZoneMode mode speed brightness direction red green blue with
      | .error e =>
        (.error e, [MgrCall.setFourZoneMode mode speed brightness direction red green blue])
      | .ok success =>
        (.ok { success := success,
               data := if success then
                 some (RVal.fourZone mode speed brightness direction red green blue)
                 else none,
               error := if success then none else some "Failed to set four-zone mode" },
         [MgrCall.setFourZoneMode mode speed brightness direction red green blue])
    else
      (.ok { success := false,
             error := some "Four-zone keyboard mode is not supported on this device" }, [])
  else if command = "get_supported_features" then
    (.ok { success := true,
           data := some (RVal.supported m.availableFeatures m.laptopType.name
             m.hasFourZoneKb) }, [])
  else if command = "get_version" then
    (.ok { success := true, data := some (RVal.versionInfo VERSION) }, [])
  else if command = "force_nitro_model" then
    match m.forceModelNitro with
    | .error e => (.error e, [MgrCall.forceModelNitro])
    | .ok success =>
      if success then
        (.ok { success := true,
               message := some "Successfully forced Nitro model into driver" },
         [MgrCall.forceModelNitro])
      else
        (.ok { success := false,
               error := some "Failed to force Nitro model into driver" },
         [MgrCall.forceModelNitro])
  else if command = "force_predator_model" then
    match m.forceModelPredator with
    | .error e => (.error e, [MgrCall.forceModelPredator])
    | .ok success =>
      if success then
        (.ok { success := true,
               message := some "Successfully forced Predator model into driver" },
         [MgrCall.forceModelPredator])
      else
        (.ok { success := false,
               error := some "Failed to force Predator model into driver (Model may not support it)" },
         [MgrCall.forceModelPredator])
  else if command = "force_enable_all" then
    match m.forceEnableAll with
    | .error e => (.error e, [MgrCall.forceEnableAll])
    | .ok success =>
      if success then
        (.ok { success := true,
               message := some "Successfully forced all features into driver" },
         [MgrCall.forceEnableAll])
      else
        (.ok { success := false,
               error := some "Failed to force all features into driver (Model may not support it)" },
         [MgrCall.forceEnableAll])
  else if command = "get_modprobe_parameter" then
    match m.getModprobeParameter with
    | .error e => (.error e, [MgrCall.getModprobeParameter])
    | .ok p =>
      (.ok { success := true, data := some (RVal.parameter p) },
       [MgrCall.getModprobeParameter, MgrCall.getModprobeParameter])
  else if command = "set_modprobe_parameter_nitro" then
    match m.setModprobeParameter "nitro_v4" with
    | .error e => (.error e, [MgrCall.setModprobeParameter "nitro_v4"])
    | .ok success =>
      if success then (.error nameErrorParam, [MgrCall.setModprobeParameter "nitro_v4"])
      else
        (.ok { success := false,
               error := some "Failed to set modprobe parameter" },
         [MgrCall.setModprobeParameter "nitro_v4"])
  else if command = "set_modprobe_parameter_predator" then
    let param := params.parameter
    match m.setModprobeParameter "predator_v4" with
    | .error e => (.error e, [MgrCall.setModprobeParameter "predator_v4"])
    | .ok success =>
      (.ok { success := success,
             data := if success then some (RVal.parameter param) else none,
             error := if success then none else some "Failed to set modprobe parameter" },
       [MgrCall.setModprobeParameter "predator_v4"])
  else if command = "set_modprobe_parameter_enable_all" then
    let param := params.parameter
    match m.setModprobeParameter "enable_all" with
    | .error e => (.error e, [MgrCall.setModprobeParameter "enable_all"])
    | .ok success =>
      (.ok { success := success,
             data := if success then some (RVal.parameter param) else none,
             error := if success then none else some "Failed to set modprobe parameter" },
       [MgrCall.setModprobeParameter "enable_all"])
  else if command = "remove_modprobe_parameter" then
    match m.removeModprobeParameter with
    | .error e => (.error e, [MgrCall.removeModprobeParameter])
    | .ok success =>
      (.ok { success := success,
             message := if success then some "Successfully removed modprobe parameter" else none,
             error := if success then none else some "Failed to remove modprobe parameter" },
       [MgrCall.removeModprobeParameter])
  else if command = "restart_daemon" then
    match m.restartDaemon with
    | .error e => (.error e, [MgrCall.restartDaemon])
    | .ok success =>
      if success then
        (.ok { success := true,
               message := some "Successfully restarted DAMX daemon" },
         [MgrCall.restartDaemon])
      else
        (.ok { success := false,
               error := some "Failed to Restart DAMX daemon (Check logs for details)" },
         [MgrCall.restartDaemon])
  else if command = "restart_drivers_and_daemon" then
    match m.restartDriversAndDaemon with
    | .error e => (.error e, [MgrCall.restartDriversAndDaemon])
    | .ok success =>
      if success then
        (.ok { success := true,
               message := some "Successfully restarted drivers and daemon" },
         [MgrCall.restartDriversAndDaemon])
      else
        (.ok { success := false,
               error := some "Failed to restart drivers and daemon" },
         [MgrCall.restartDriversAndDaemon])
  else
    (.ok { success := false, error := some ("Unknown command: " ++ command) }, [])

/-- `DaemonServer.process_command`: the body wrapped in its
`try`/`except Exception` clause, which converts an escaping exception
into the `{"success": False, "error": str(e)}` response. -/
def process_command (m : MgrOps) (command : String) (params : Params) :
    Response × List MgrCall :=
  let r := process_command_body m command params
  match r.1 with
  | .ok resp => (resp, r.2)
  | .error e => ({ success := false, error := some e }, r.2)

/-- One framed inbound unit as `handle_client` sees it: a payload that
fails `json.loads`, a payload parsed into `{command, params}`, or a read
failure (short read / broken pipe), which `break`s out of the loop. -/
inductive InMsg
  | malformed
  | valid (command : String) (params : Params)
  | brokenPipe

/-- The response `handle_client` writes for a payload that fails JSON
parsing. -/
def invalidJsonResponse : Response :=
  { success := false, error := some "Invalid JSON format" }

/-- `DaemonServer.handle_client` with `self.running` held `True`: the
per-connection loop, mapping the inbound frame sequence to the sequence
of responses written back on the same connection.  A malformed payload
is answered and the loop continues; a broken read ends the
connection. -/
def handle_client (m : MgrOps) : List InMsg → List Response
  | [] => []
  | InMsg.brokenPipe :: _ => []
  | InMsg.malformed :: rest => invalidJsonResponse :: handle_client m rest
  | InMsg.valid command params :: rest =>
    (process_command m command params).1 :: handle_client m rest

/-! Fixed sample environments used by the witnesses below. -/

/-- A `set_thermal_profile` environment whose `powercfg` call succeeds. -/
def demoThermalEnv : ThermalSetEnv := ⟨true⟩

/-- A `set_fan_speed` environment in which all three vendor methods
fail: both Acer WMI namespaces unavailable and the PowerShell script
exiting with code 1. -/
def demoSetFanEnv : SetFanEnv :=
  { acerNsOk := false, controllers := Except.ok [], cpuSetObjs := Except.ok [],
    gpuSetObjs := Except.ok [], acerNs2Ok := false, acmcObjs := Except.ok [],
    psRun := Except.ok 1, thermalEnv := ⟨true⟩ }

/-- A detection environment: no WMI connection, a Nitro laptop. -/
def demoDetectEnv : DetectEnv :=
  { wmiConn := false, batteryQuery := Except.ok false, acerNsOk := false,
    laptopType := LaptopType.nitro }

/-- Helper: in every feature set `_detect_available_features` can
produce, `fan_speed` is only ever present together with
`thermal_profile` (the unconditional `available.add("thermal_profile")`
precedes the vendor-feature block, and the only exit skipping it also
skips the vendor features). -/
theorem detect_fan_implies_thermal (env : DetectEnv)
    (h : "fan_speed" ∈ detect_available_features env) :
    "thermal_profile" ∈ detect_available_features env := by
  by_cases hw : env.wmiConn
  · simp only [detect_available_features, if_pos hw] at h ⊢
    revert h
    cases env.batteryQuery with
    | error e => intro h; simp at h
    | ok b => intro h; simp [List.mem_append]
  · simp [detect_available_features, hw, List.mem_append]

/-- Claim C1: every setter whose feature identifier is absent from the
detected feature set returns failure with no observable platform call
(and, the manager holding no per-feature mutable state, no state
change): the two guarded setters return `(False, [])` when gated off,
and every stub setter returns `(False, [])` unconditionally. -/
theorem setters_fail_closed (tenv : ThermalSetEnv) (fenv : SetFanEnv)
    (features : List String) (profile : String) (cpu gpu : Int) (b : Bool)
    (z1 z2 z3 z4 : String) (br mode speed direction red green blue level : Int) :
    ("thermal_profile" ∉ features → set_thermal_profile tenv features profile = (false, []))
    ∧ ("fan_speed" ∉ features → set_fan_speed fenv features cpu gpu = (false, []))
    ∧ ("backlight_timeout" ∉ features → set_backlight_timeout b = (false, []))
    ∧ ("battery_calibration" ∉ features → set_battery_calibration b = (false, []))
    ∧ ("battery_limiter" ∉ features → set_battery_limiter b = (false, []))
    ∧ ("boot_animation_sound" ∉ features → set_boot_animation_sound b = (false, []))
    ∧ ("lcd_override" ∉ features → set_lcd_override b = (false, []))
    ∧ ("usb_charging" ∉ features → set_usb_charging level = (false, []))
    ∧ ("per_zone_mode" ∉ features → set_per_zone_mode z1 z2 z3 z4 br = (false, []))
    ∧ ("four_zone_mode" ∉ features →
        set_four_zone_mode mode speed br direction red green blue = (false, [])) := by
  refine ⟨fun h => ?_, fun h => ?_, fun _ => rfl, fun _ => rfl, fun _ => rfl,
    fun _ => rfl, fun _ => rfl, fun _ => rfl, fun _ => rfl, fun _ => rfl⟩
  · simp [set_thermal_profile, h]
  · simp [set_fan_speed, h]

/-- Witness for `setters_fail_closed` at the empty feature set. -/
theorem setters_fail_closed_witness :
    set_thermal_profile demoThermalEnv [] "performance" = (false, [])
    ∧ set_fan_speed demoSetFanEnv [] 50 50 = (false, [])
    ∧ set_backlight_timeout true = (false, []) := by
  obtain ⟨h1, h2, h3, -⟩ := setters_fail_closed demoThermalEnv demoSetFanEnv []
    "performance" 50 50 true "000000" "000000" "000000" "000000" 100 0 0 1 0 0 0 0
  exact ⟨h1 (by decide), h2 (by decide), h3 (by decide)⟩

/-- Claim C6: `set_fan_speed` with either speed outside `[0,100]`
returns failure with an empty platform-call trace (whether or not the
feature gate passes first, no platform call is attempted). -/
theorem set_fan_speed_rejects_out_of_range (env : SetFanEnv)
    (features : List String) (cpu gpu : Int)
    (h : ¬(0 ≤ cpu ∧ cpu ≤ 100 ∧ 0 ≤ gpu ∧ gpu ≤ 100)) :
    set_fan_speed env features cpu gpu = (false, []) := by
  by_cases hm : "fan_speed" ∈ features
  · simp [set_fan_speed, hm, h]
  · simp [set_fan_speed, hm]

/-- Witness for `set_fan_speed_rejects_out_of_range` at `cpu = 150`. -/
theorem set_fan_speed_rejects_out_of_range_witness :
    set_fan_speed demoSetFanEnv ["thermal_profile", "fan_speed"] 150 50 = (false, []) :=
  set_fan_speed_rejects_out_of_range demoSetFanEnv ["thermal_profile", "fan_speed"]
    150 50 (by decide)

/-- Claim C8: with the feature available, `set_thermal_profile` always
activates `scheme_map.get(profile.lower(), balanced)` — the requested
name is mapped case-insensitively through the fixed table — and in
particular any profile string missing from the table activates the
identifier mapped to `balanced` rather than being rejected. -/
theorem set_thermal_profile_table (env : ThermalSetEnv) (features : List String)
    (profile : String) (hft : "thermal_profile" ∈ features) :
    (set_thermal_profile env features profile).2 =
      [PlatformCall.powercfgSetActive
        ((schemeLookup (strLower profile)).getD balancedGuid)]
    ∧ (schemeLookup (strLower profile) = none →
        (set_thermal_profile env features profile).2 =
          [PlatformCall.powercfgSetActive balancedGuid]) := by
  constructor
  · simp only [set_thermal_profile, if_pos hft]
    by_cases hok : env.powercfgOk <;> simp [hok]
  · intro hnone
    simp only [set_thermal_profile, if_pos hft, hnone, Option.getD_none]
    by_cases hok : env.powercfgOk <;> simp [hok]

/-- Witness for `set_thermal_profile_table`: the unrecognized profile
string `"TURBO"` activates the Balanced scheme identifier. -/
theorem set_thermal_profile_table_witness :
    (set_thermal_profile demoThermalEnv ["thermal_profile"] "TURBO").2 =
      [PlatformCall.powercfgSetActive balancedGuid] :=
  (set_thermal_profile_table demoThermalEnv ["thermal_profile"] "TURBO"
    (by decide)).2 (by decide)

/-- Counterexample to claim C9: the profile-to-scheme mapping is not
injective — the distinct names `performance` and `balanced-performance`
map to the same High Performance identifier. -/
theorem scheme_map_not_injective :
    schemeLookup "performance" = some highPerfGuid
    ∧ schemeLookup "balanced-performance" = some highPerfGuid
    ∧ "performance" ≠ "balanced-performance" := by decide

/-- Claim C9 (amended): the mapping from the five profile names to
power-scheme identifiers is total but 2-to-1 on two pairs: `performance`
and `balanced-performance` share the High Performance identifier,
`quiet` and `low-power` share the Power Saver identifier, and `balanced`
has its own distinct identifier. -/
theorem scheme_map_shape :
    schemeLookup "performance" = some highPerfGuid
    ∧ schemeLookup "balanced-performance" = some highPerfGuid
    ∧ schemeLookup "balanced" = some balancedGuid
    ∧ schemeLookup "quiet" = some powerSaverGuid
    ∧ schemeLookup "low-power" = some powerSaverGuid
    ∧ highPerfGuid ≠ balancedGuid
    ∧ balancedGuid ≠ powerSaverGuid
    ∧ highPerfGuid ≠ powerSaverGuid := by decide

/-- Counterexample to claim C4: on a transition (here Battery, reading
`False` with last observed state `True`) the poll records the
`current_source` assignment strictly before the handler call, not
afterwards as the claim states. -/
theorem check_power_source_update_before_fire :
    (check_power_source false (some true)).2 =
      [PollEvent.setSource false, PollEvent.fire false]
    ∧ (check_power_source false (some true)).2 ≠
      [PollEvent.fire false, PollEvent.setSource false] := by decide

/-- Claim C4 (amended): per poll, the handler fires exactly once iff the
newly read state differs from the last observed state — with the
last-observed state updated to the new state immediately before the
handler fires — and an unchanged state produces no event at all. -/
theorem check_power_source_transition (isPluggedIn : Bool) (cur : Option Bool) :
    (some isPluggedIn ≠ cur →
      check_power_source isPluggedIn cur =
        (some isPluggedIn,
         [PollEvent.setSource isPluggedIn, PollEvent.fire isPluggedIn]))
    ∧ (some isPluggedIn = cur → check_power_source isPluggedIn cur = (cur, [])) := by
  constructor
  · intro h; simp [check_power_source, h]
  · intro h; simp [check_power_source, h]

/-- Witness for `check_power_source_transition`: the first poll (from
the initial `None`) fires, a repeated reading does not. -/
theorem check_power_source_transition_witness :
    check_power_source true none =
      (some true, [PollEvent.setSource true, PollEvent.fire true])
    ∧ check_power_source true (some true) = (some true, []) :=
  ⟨(check_power_source_transition true none).1 (by decide),
   (check_power_source_transition true (some true)).2 rfl⟩

/-- Claim C3: on a transition to battery power with a current profile
outside the battery-friendly set, the handler invokes
`set_thermal_profile` with the first of `balanced`, `quiet`, `low-power`
present in the available-profile list, and with none of them present it
applies nothing. -/
theorem handle_power_change_battery (genv : ThermalGetEnv) (features : List String)
    (h : get_thermal_profile genv features ∉
      (["balanced", "quiet", "low-power"] : List String)) :
    handle_power_change genv features false =
      (["balanced", "quiet", "low-power"] : List String).find?
        (fun p => (get_thermal_profile_choices features).contains p) := by
  by_cases hft : "thermal_profile" ∈ features
  · have hc : get_thermal_profile_choices features =
        ["low-power", "quiet", "balanced", "balanced-performance", "performance"] := by
      simp [get_thermal_profile_choices, hft]
    rw [hc]
    simp only [handle_power_change, if_pos hft, hc]
    rw [if_neg h]
    decide
  · have hc : get_thermal_profile_choices features = [] := by
      simp [get_thermal_profile_choices, hft]
    rw [hc]
    simp [handle_power_change, hft]

/-- Witness for `handle_power_change_battery`: with the High Performance
scheme active and all five profiles available the handler switches to
`balanced`. -/
theorem handle_power_change_battery_witness :
    handle_power_change ⟨Except.ok "(high performance)"⟩ ["thermal_profile"] false =
      some "balanced" :=
  (handle_power_change_battery ⟨Except.ok "(high performance)"⟩ ["thermal_profile"]
    (by decide)).trans (by decide)

/-- Claim C2: with the `fan_speed` feature detected, both speeds in
range and all three vendor methods failing, `set_fan_speed` succeeds
exactly when both speeds are `>= 80` (applying the `performance`
profile) or both are `0` (applying `balanced`); any other combination
fails.  The feature-detection environment is quantified because the
fallback additionally requires `thermal_profile` to be available, which
`detect_available_features` guarantees whenever `fan_speed` is. -/
theorem set_fan_speed_fallback (denv : DetectEnv) (env : SetFanEnv) (cpu gpu : Int)
    (hmem : "fan_speed" ∈ detect_available_features denv)
    (hrange : 0 ≤ cpu ∧ cpu ≤ 100 ∧ 0 ≤ gpu ∧ gpu ≤ 100)
    (h1 : (fanMethod1 env cpu gpu).1 = false)
    (h2 : (fanMethod2 env cpu gpu).1 = false)
    (h3 : (fanMethod3 env cpu gpu).1 = false) :
    ((set_fan_speed env (detect_available_features denv) cpu gpu).1 = true ↔
      (80 ≤ cpu ∧ 80 ≤ gpu) ∨ (cpu = 0 ∧ gpu = 0))
    ∧ ((80 ≤ cpu ∧ 80 ≤ gpu) →
        (set_fan_speed env (detect_available_features denv) cpu gpu).2 =
          (fanMethod1 env cpu gpu).2 ++ (fanMethod2 env cpu gpu).2 ++
            (fanMethod3 env cpu gpu).2 ++ [PlatformCall.powercfgSetActive highPerfGuid])
    ∧ ((cpu = 0 ∧ gpu = 0) →
        (set_fan_speed env (detect_available_features denv) cpu gpu).2 =
          (fanMethod1 env cpu gpu).2 ++ (fanMethod2 env cpu gpu).2 ++
            (fanMethod3 env cpu gpu).2 ++ [PlatformCall.powercfgSetActive balancedGuid]) := by
  have hft := detect_fan_implies_thermal denv hmem
  have hperf : (set_thermal_profile env.thermalEnv (detect_available_features denv)
      "performance").2 = [PlatformCall.powercfgSetActive highPerfGuid] := by
    have hg : (schemeLookup (strLower "performance")).getD balancedGuid = highPerfGuid := by
      decide
    simp only [set_thermal_profile, if_pos hft, hg]
    by_cases hok : env.thermalEnv.powercfgOk <;> simp [hok]
  have hbal : (set_thermal_profile env.thermalEnv (detect_available_features denv)
      "balanced").2 = [PlatformCall.powercfgSetActive balancedGuid] := by
    have hg : (schemeLookup (strLower "balanced")).getD balancedGuid = balancedGuid := by
      decide
    simp only [set_thermal_profile, if_pos hft, hg]
    by_cases hok : env.thermalEnv.powercfgOk <;> simp [hok]
  have hset : set_fan_speed env (detect_available_features denv) cpu gpu =
      fanFallback env.thermalEnv (detect_available_features denv) cpu gpu
        ((fanMethod1 env cpu gpu).2 ++ (fanMethod2 env cpu gpu).2 ++
          (fanMethod3 env cpu gpu).2) := by
    simp only [set_fan_speed, if_pos hmem, if_pos hrange, h1, h2, h3,
      Bool.false_eq_true, if_false]
  rw [hset]
  simp only [fanFallback, if_pos hft]
  refine ⟨?_, ?_, ?_⟩
  · by_cases hp : 80 ≤ cpu ∧ 80 ≤ gpu
    · simp [hp]
    · by_cases hz : cpu = 0 ∧ gpu = 0
      · simp [hp, hz]
      · simp [hp, hz]
  · intro hp
    simp [hp, hperf, List.append_assoc]
  · intro hz
    obtain ⟨hz1, hz2⟩ := hz
    have hp : ¬(80 ≤ cpu ∧ 80 ≤ gpu) := by omega
    simp [hp, hz1, hz2, hbal, List.append_assoc]

/-- Witness for `set_fan_speed_fallback`: requested speeds `(90, 85)`
with every vendor method failing report success (via the `performance`
fallback). -/
theorem set_fan_speed_fallback_witness :
    (set_fan_speed demoSetFanEnv (detect_available_features demoDetectEnv) 90 85).1 =
      true :=
  ((set_fan_speed_fallback demoDetectEnv demoSetFanEnv 90 85 (by decide) (by decide)
    rfl rfl rfl).1).mpr (Or.inl (by decide))

/-- A platform environment in which every query raises and the one
subprocess read fails. -/
def allFailManagerEnv : ManagerEnv :=
  { driver := { wmiConn := true, driverQuery := Except.error () },
    thermalGet := ⟨Except.error ()⟩,
    fanRead :=
      { acerNsOk := false, acerFanSpeedObjs := Except.error (),
        acerCpuFanObjs := Except.error (), acerGpuFanObjs := Except.error (),
        wmiRootOk := true, win32FanObjs := Except.error (),
        ohmSensors := Except.error (), lhmSensors := Except.error () } }

/-- A manager state with the feature set a Nitro laptop with a battery
would detect. -/
def demoManagerState : ManagerState :=
  { laptopType := LaptopType.nitro, hasFourZoneKb := false,
    availableFeatures := ["battery_calibration", "battery_limiter", "thermal_profile",
      "fan_speed", "boot_animation_sound", "backlight_timeout", "lcd_override"],
    currentModprobeParam := "" }

/-- Counterexample to claim C5: with every platform query raising, the
`thermal_profile` feature — whose getter's platform call failed — is
still included in the settings map (with the getter's fallback value
`'balanced'`), not excluded from it: the exception is caught inside the
getter, not by `get_all_settings`. -/
theorem get_all_settings_includes_failing_feature :
    ("thermal_profile",
      SVal.profileInfo "balanced"
        ["low-power", "quiet", "balanced", "balanced-performance", "performance"])
      ∈ get_all_settings demoManagerState allFailManagerEnv := by decide

/-- Claim C5 (amended): `get_all_settings` returns a settings map for
every behaviour of the underlying platform queries, including every one
of them failing — each per-feature exception is caught inside that
feature's getter, which contributes a fallback value — and the keys of
the map depend only on the feature set, never on platform failures, so
no failure aborts the call or drops a feature. -/
theorem get_all_settings_total_shape (st : ManagerState) (env : ManagerEnv) :
    (get_all_settings st env).map Prod.fst = settingsKeys st.availableFeatures := by
  have hmap : ∀ (c : Prop) (inst : Decidable c) (k : String) (v : SVal),
      (if c then [(k, v)] else []).map Prod.fst = if c then [k] else [] := by
    intro c inst k v
    split_ifs <;> rfl
  simp only [get_all_settings, settingsKeys, List.map_append, List.map_cons,
    List.map_nil, hmap, List.append_assoc, List.cons_append, List.nil_append]

/-- Claim C7: a payload that fails JSON parsing is answered with exactly
`{"success": false, "error": "Invalid JSON format"}` and the connection
loop continues, so a following valid request is processed normally by
`process_command`. -/
theorem handle_client_malformed (m : MgrOps) (rest : List InMsg)
    (command : String) (params : Params) :
    invalidJsonResponse =
      { success := false, data := none,
        error := some "Invalid JSON format", message := none }
    ∧ handle_client m (InMsg.malformed :: rest) =
        invalidJsonResponse :: handle_client m rest
    ∧ handle_client m (InMsg.malformed :: InMsg.valid command params :: rest) =
        invalidJsonResponse :: (process_command m command params).1 ::
          handle_client m rest :=
  ⟨rfl, rfl, rfl⟩

/-- A fixed manager behaviour for the dispatcher witnesses: every
operation returns normally except `restart_daemon`, which raises. -/
def demoOps : MgrOps :=
  { getAllSettings := Except.ok [], getThermalProfile := Except.ok "balanced",
    getThermalProfileChoices := Except.ok [],
    setThermalProfile := fun _ => Except.ok true,
    setBacklightTimeout := fun _ => Except.ok false,
    setBatteryCalibration := fun _ => Except.ok false,
    setBatteryLimiter := fun _ => Except.ok false,
    setBootAnimationSound := fun _ => Except.ok false,
    setFanSpeed := fun _ _ => Except.ok false,
    setLcdOverride := fun _ => Except.ok false,
    setUsbCharging := fun _ => Except.ok false,
    setPerZoneMode := fun _ _ _ _ _ => Except.ok false,
    setFourZoneMode := fun _ _ _ _ _ _ _ => Except.ok false,
    forceModelNitro := Except.ok false, forceModelPredator := Except.ok false,
    forceEnableAll := Except.ok false, getModprobeParameter := Except.ok "",
    setModprobeParameter := fun _ => Except.ok false,
    removeModprobeParameter := Except.ok true,
    restartDaemon := Except.error "boom",
    restartDriversAndDaemon := Except.ok false,
    availableFeatures := ["thermal_profile"], laptopType := LaptopType.unknown,
    hasFourZoneKb := false }

/-- Claim C10: a command matching no entry of the dispatch chain is
answered `{"success": false, "error": "Unknown command: <command>"}`
with no manager operation invoked; and whenever the dispatch body lets
an exception escape, the `except` clause still returns a response
dictionary carrying the exception text, so `process_command` never
raises. -/
theorem process_command_unknown_total (m : MgrOps) (command : String)
    (params : Params) :
    (command ∉ knownCommands →
      process_command m command params =
        ({ success := false, error := some ("Unknown command: " ++ command) }, []))
    ∧ (∀ e, (process_command_body m command params).1 = Except.error e →
        (process_command m command params).1 = { success := false, error := some e }) := by
  constructor
  · intro hc
    simp only [knownCommands, List.mem_cons, List.not_mem_nil, or_false] at hc
    push_neg at hc
    obtain ⟨c1, c2, c3, c4, c5, c6, c7, c8, c9, c10, c11, c12, c13, c14, c15, c16,
      c17, c18, c19, c20, c21, c22, c23, c24⟩ := hc
    simp only [process_command, process_command_body, if_neg c1, if_neg c2, if_neg c3,
      if_neg c4, if_neg c5, if_neg c6, if_neg c7, if_neg c8, if_neg c9, if_neg c10,
      if_neg c11, if_neg c12, if_neg c13, if_neg c14, if_neg c15, if_neg c16,
      if_neg c17, if_neg c18, if_neg c19, if_neg c20, if_neg c21, if_neg c22,
      if_neg c23, if_neg c24]
  · intro e he
    simp only [process_command]
    rw [he]

/-- Witness for `process_command_unknown_total`: the unknown command
`"frobnicate"` and a raising `restart_daemon` operation. -/
theorem process_command_unknown_total_witness :
    process_command demoOps "frobnicate" {} =
      ({ success := false, error := some "Unknown command: frobnicate" }, [])
    ∧ (process_command demoOps "restart_daemon" {}).1 =
      { success := false, error := some "boom" } :=
  ⟨(process_command_unknown_total demoOps "frobnicate" {}).1 (by decide),
   (process_command_unknown_total demoOps "restart_daemon" {}).2 "boom" rfl⟩

end DAMX
